import Mathlib

/-!
Verification development for the inbound-email SMTP-to-webhook relay.

The JavaScript sources are shallowly embedded: strings are `List Char`,
JavaScript runtime values reaching the router are a small inductive type,
asynchronous I/O (HTTP posts, S3 uploads, the filesystem) is passed
explicitly as oracle arguments or association-list file systems, and
machine integers are `Nat`/`Int` with explicit wrap-around where the code
depends on it.  Each definition names the source function it embeds.
-/

set_option maxRecDepth 8192

namespace InboundEmail

/-! ## Characters and JavaScript string/value model -/

/-- ASCII lowercasing, the model of String.prototype.toLowerCase and of the
case folding done by the RegExp i flag on the ASCII inputs this development
handles. -/
def lcChar (c : Char) : Char := c.toLower

/-- Lowercase a JavaScript string (modelled as a list of characters). -/
def lcStr (s : List Char) : List Char := s.map lcChar

/-- Scalar JavaScript values that reach WebhookRouter.evaluateCondition as
a resolved email value or as an array element: undefined, null, booleans
and strings.  Numbers never reach it along the resolution paths in
webhookRouter.js. -/
inductive JPrim where
  | undefv
  | null
  | jbool (b : Bool)
  | jstr (s : List Char)
deriving DecidableEq, Repr

/-- JavaScript values as seen by the router: a scalar, an array of scalars
(the shapes produced by extractEmail and by the header multi-map), or a
nested object (walked only by getNestedValue). -/
inductive JVal where
  | prim (p : JPrim)
  | arr (elems : List JPrim)
  | obj (fields : List (List Char × JVal))

/-- JavaScript truthiness of a scalar: undefined, null, false and the empty
string are falsy. -/
def primTruthy : JPrim → Bool
  | .undefv => false
  | .null => false
  | .jbool b => b
  | .jstr s => !s.isEmpty

/-- JavaScript truthiness of a value: arrays and objects are always truthy. -/
def jsTruthy : JVal → Bool
  | .prim p => primTruthy p
  | .arr _ => true
  | .obj _ => true

/-- String conversion of a scalar, as performed by JavaScript String(). -/
def primToString : JPrim → List Char
  | .undefv => ("undefined").data
  | .null => ("null").data
  | .jbool true => ("true").data
  | .jbool false => ("false").data
  | .jstr s => s

/-- Array.prototype.join maps undefined and null elements to the empty
string, unlike String(). -/
def primJoinElem : JPrim → List Char
  | .undefv => []
  | .null => []
  | p => primToString p

/-- Join a list of strings with the given separator, as Array.prototype.join. -/
def joinWith (sep : List Char) : List (List Char) → List Char
  | [] => []
  | [s] => s
  | s :: rest => s ++ sep ++ joinWith sep rest

/-- String conversion of a value, as performed when RegExp.prototype.test
coerces its argument: arrays join their elements with commas, objects
become "[object Object]". -/
def jsToString : JVal → List Char
  | .prim p => primToString p
  | .arr xs => joinWith [','] (xs.map primJoinElem)
  | .obj _ => ("[object Object]").data

/-! ## Regular-expression engine

A small regular-expression semantics (matching by Brzozowski derivatives)
used to embed the JavaScript RegExp objects the router builds.  The
pattern parser below covers the fragment the router's rule language
generates: literal characters, the '.' wildcard, backslash-escaped
metacharacters and the postfix quantifiers '*', '+' and '?'.  A pattern
outside this fragment parses to none, and every condition evaluation
built on it propagates none ("outside the modelled fragment"). -/

inductive RE where
  | emp
  | eps
  | chr (c : Char)
  | anyc
  | alt (r s : RE)
  | seq (r s : RE)
  | star (r : RE)
deriving DecidableEq, Repr

/-- Does a regular expression accept the empty string. -/
def nullable : RE → Bool
  | .emp => false
  | .eps => true
  | .chr _ => false
  | .anyc => false
  | .alt r s => nullable r || nullable s
  | .seq r s => nullable r && nullable s
  | .star _ => true

/-- Brzozowski derivative of a regular expression by one character. -/
def deriv : RE → Char → RE
  | .emp, _ => .emp
  | .eps, _ => .emp
  | .chr c, a => if c = a then .eps else .emp
  | .anyc, _ => .eps
  | .alt r s, a => .alt (deriv r a) (deriv s a)
  | .seq r s, a =>
    if nullable r then .alt (.seq (deriv r a) s) (deriv s a)
    else .seq (deriv r a) s
  | .star r, a => .seq (deriv r a) (.star r)

/-- Whole-string regular-expression matching by iterated derivatives. -/
def reFull (r : RE) (cs : List Char) : Bool := nullable (cs.foldl deriv r)

/-- The regex metacharacters of JavaScript (the characters a regex-escaping
helper must escape). -/
def regexMeta : List Char :=
  ['\\', '^', '$', '.', '|', '?', '*', '+', '(', ')', '[', ']', '\x7b', '\x7d']

/-- Case-fold a pattern character when the i flag is set. -/
def ciChar (ci : Bool) (c : Char) : Char := if ci then lcChar c else c

/-- Append the pending atom, if any, to the parsed prefix. -/
def reFlush (acc : RE) : Option RE → RE
  | none => acc
  | some a => .seq acc a

/-- Parse a JavaScript regex pattern in the modelled fragment: literal
characters, '.', backslash-escaped metacharacters and the postfix
quantifiers '*', '+', '?'.  The accumulator holds the parsed prefix and
the last atom (the target of a following quantifier).  Patterns outside
the fragment, a trailing backslash, or a quantifier with nothing to
repeat (a SyntaxError in JavaScript) give none. -/
def parseREAux (ci : Bool) : RE → Option RE → List Char → Option RE
  | acc, last, [] => some (reFlush acc last)
  | _, _, ['\\'] => none
  | acc, last, '\\' :: d :: rest =>
    if d ∈ regexMeta then parseREAux ci (reFlush acc last) (some (.chr (ciChar ci d))) rest
    else none
  | acc, last, '.' :: rest => parseREAux ci (reFlush acc last) (some .anyc) rest
  | acc, last, '*' :: rest =>
    match last with
    | some a => parseREAux ci (.seq acc (.star a)) none rest
    | none => none
  | acc, last, '+' :: rest =>
    match last with
    | some a => parseREAux ci (.seq acc (.seq a (.star a))) none rest
    | none => none
  | acc, last, '?' :: rest =>
    match last with
    | some a => parseREAux ci (.seq acc (.alt .eps a)) none rest
    | none => none
  | acc, last, c :: rest =>
    if c ∈ regexMeta then none
    else parseREAux ci (reFlush acc last) (some (.chr (ciChar ci c))) rest

/-- Parse a pattern (with the i flag when ci is set). -/
def parseRE (ci : Bool) (pat : List Char) : Option RE := parseREAux ci .eps none pat

/-- Model of new RegExp("^" + pat + "$", "i") followed by .test(s): anchored,
case-insensitive matching.  none when pat falls outside the modelled
fragment. -/
def jsTestAnchoredCI (pat : List Char) (s : List Char) : Option Bool :=
  (parseRE true pat).map (fun r => reFull r (lcStr s))

/-- Model of an unanchored RegExp test: the pattern may match any substring,
expressed as a whole-string match of .* pat .* . -/
def jsTestSearch (ci : Bool) (pat : List Char) (s : List Char) : Option Bool :=
  (parseRE ci pat).map (fun r =>
    reFull (.seq (.star .anyc) (.seq r (.star .anyc))) (if ci then lcStr s else s))

/-! ## WebhookRouter.evaluateCondition (webhookRouter.js 44-75) -/

/-- The wildcard-to-regex conversion the code performs:
condition.replace of every asterisk by dot-asterisk, with no prior escaping
of other regex metacharacters. -/
def wildcardPattern (cond : List Char) : List Char :=
  (cond.map (fun c => if c = '*' then ['.', '*'] else [c])).flatten

/-- Does the condition have the regex-literal shape the code recognises:
it starts with a slash and lastIndexOf of the slash is positive. -/
def isRegexCond (cond : List Char) : Bool :=
  match cond with
  | '/' :: rest => rest.contains '/'
  | _ => false

/-- Split a regex-literal condition /pattern/flags at its last slash,
returning (pattern, flags).  Assumes the leading slash was stripped. -/
def splitLastSlash (rest : List Char) : List Char × List Char :=
  match rest.reverse.indexOf '/' with
  | i => ((rest.take (rest.length - 1 - i)), rest.drop (rest.length - i))

/-- Evaluate the regex-literal branch: compile the pattern with its flags
and test unanchored.  Flags other than i are outside the modelled
fragment (none); a pattern that fails to compile in JavaScript is a
caught error and yields false, which on the modelled fragment coincides
with parse failure handled by the caller. -/
def regexCondTest (cond : List Char) (value : List Char) : Option Bool :=
  match cond with
  | '/' :: rest =>
    match splitLastSlash rest with
    | (pat, flags) =>
      if flags = [] then jsTestSearch false pat value
      else if flags = ['i'] then jsTestSearch true pat value
      else none
  | _ => none

/-- Scalar case-insensitive equality, the exact-match branch of
evaluateCondition: value.toLowerCase() === condition.toLowerCase().  A
true boolean or an object would raise a TypeError in JavaScript; those
values never reach this branch on the resolution paths the claims
exercise, and the model returns false for them. -/
def primExactMatch (cond : List Char) : JPrim → Bool
  | .jstr s => lcStr s = lcStr cond
  | _ => false

/-- Model of WebhookRouter.evaluateCondition(condition, value)
(webhookRouter.js lines 44-75).  Result some b is the boolean the code
returns; none means the condition involves a regex feature outside the
modelled fragment.  Branch order follows the source: the falsy guard, the
wildcard branch, the regex-literal branch, the array branch (any element,
by the scalar exact match, since the guard and the string branches were
already taken for the whole value), and case-insensitive equality. -/
def evaluateCondition (condition : List Char) (value : JVal) : Option Bool :=
  if condition.isEmpty || !jsTruthy value then some false
  else if condition.contains '*' then
    jsTestAnchoredCI (wildcardPattern condition) (jsToString value)
  else if isRegexCond condition then
    match regexCondTest condition (jsToString value) with
    | some b => some b
    | none => none
  else
    match value with
    | .arr vs => some (vs.any (fun v => primTruthy v && primExactMatch condition v))
    | .prim p => some (primExactMatch condition p)
    | .obj _ => some false

/-! ## WebhookRouter: rules, field resolution and routing
(webhookRouter.js 14-212) -/

/-- The object shape extractEmail probes on an address field: optional
text, value (an array of address entries) and address properties.  An
absent property is none; JavaScript truthiness of a string property is
"present and non-empty". -/
structure AddrEntry where
  address : Option (List Char)
  text : Option (List Char)
deriving Repr

structure AddrObj where
  text : Option (List Char)
  value : Option (List AddrEntry)
  address : Option (List Char)
deriving Repr

/-- An address field of the parsed email: absent, a plain string, or an
address object. -/
inductive AddrField where
  | missing
  | strv (s : List Char)
  | objv (o : AddrObj)
deriving Repr

/-- Truthiness of an optional string property. -/
def optTruthy : Option (List Char) → Bool
  | some s => !s.isEmpty
  | none => false

/-- The element mapping inside extractEmail: addr.address or addr.text,
then filter(Boolean) keeps only the truthy results. -/
def pickAddr (a : AddrEntry) : Option (List Char) :=
  match (if optTruthy a.address then a.address else a.text) with
  | some s => if s.isEmpty then none else some s
  | none => none

/-- Model of WebhookRouter.extractEmail (webhookRouter.js 126-146):
probe, in order, a string field, a truthy text property, a value array
(mapped to the truthy address-or-text of each entry), a truthy address
property, and finally null. -/
def extractEmail : AddrField → JVal
  | .missing => .prim .null
  | .strv s => .prim (.jstr s)
  | .objv o =>
    if optTruthy o.text then .prim (.jstr (o.text.getD []))
    else
      match o.value with
      | some entries => .arr ((entries.filterMap pickAddr).map JPrim.jstr)
      | none =>
        if optTruthy o.address then .prim (.jstr (o.address.getD []))
        else .prim .null

/-- Split a dot-path into its keys, as String.prototype.split of a dot. -/
def splitDots (path : List Char) : List (List Char) :=
  match path with
  | [] => [[]]
  | c :: rest =>
    match splitDots rest with
    | [] => [[]]
    | k :: ks => if c = '.' then [] :: k :: ks else (c :: k) :: ks

/-- Model of WebhookRouter.getNestedValue (webhookRouter.js 148-161):
walk the keys of a dot-path through nested objects; a missing key or a
non-object on the way gives undefined. -/
def getNestedKeys : JVal → List (List Char) → JVal
  | v, [] => v
  | .obj fields, k :: ks =>
    match fields.lookup k with
    | some v => getNestedKeys v ks
    | none => .prim .undefv
  | _, _ :: _ => .prim .undefv

def getNestedValue (v : JVal) (path : List Char) : JVal :=
  getNestedKeys v (splitDots path)

/-- A condition in a rule's conditions mapping: a matcher string, or the
object form used under the header field. -/
inductive Cond where
  | cstr (s : List Char)
  | chdr (hname : Option (List Char)) (hvalue : List Char)
deriving Repr

/-- A webhook routing rule (the fields the source reads). -/
structure Rule where
  name : Option (List Char)
  conditions : List (List Char × Cond)
  webhook : List Char
  priority : Option Int
  stopProcessing : Bool
deriving Repr

/-- The parsed email as the router consumes it: the from, to and cc
address fields, the subject, the attachmentInfo list (always set by
parseEmail, possibly empty), the headers multi-map when present, and the
remaining object reachable by dot-path conditions. -/
structure EmailV where
  efrom : AddrField
  eto : AddrField
  ecc : AddrField
  subject : Option (List Char)
  attachmentInfo : List JVal
  headers : Option (List (List Char × JVal))
  extra : JVal

/-- A subject that is absent resolves to undefined. -/
def optStrVal : Option (List Char) → JVal
  | some s => .prim (.jstr s)
  | none => .prim .undefv

/-- Map.prototype.get on the header multi-map: the stored value, or
undefined when the name is absent. -/
def headerGet (hm : List (List Char × JVal)) (n : List Char) : JVal :=
  match hm.lookup n with
  | some v => v
  | none => .prim .undefv

/-- Resolve one (field, condition) pair and evaluate it, following the
switch in WebhookRouter.evaluateRule (webhookRouter.js 84-121).  A header
condition with a truthy name and a present headers map matches the looked
up header value; with an absent name or no headers map the switch falls
through and the condition object is evaluated against an undefined email
value, which the falsy guard turns into false.  A condition-object under
any other field would raise a TypeError in JavaScript and is outside the
model (none). -/
def evalFieldCond (e : EmailV) (field : List Char) (c : Cond) : Option Bool :=
  match c with
  | .chdr hn hv =>
    if field = ("header").data then
      match hn, e.headers with
      | some n, some hm =>
        if n.isEmpty then some false
        else evaluateCondition hv (headerGet hm n)
      | _, _ => some false
    else none
  | .cstr cs =>
    if field = ("from").data then evaluateCondition cs (extractEmail e.efrom)
    else if field = ("to").data then evaluateCondition cs (extractEmail e.eto)
    else if field = ("cc").data then evaluateCondition cs (extractEmail e.ecc)
    else if field = ("subject").data then evaluateCondition cs (optStrVal e.subject)
    else if field = ("hasAttachments").data then
      evaluateCondition cs
        (.prim (.jstr (if e.attachmentInfo.length > 0 then ("true").data else ("false").data)))
    else if field = ("header").data then
      evaluateCondition cs (.prim .undefv)
    else evaluateCondition cs (getNestedValue e.extra field)

/-- Conjunction over a rule's conditions with the source's short-circuit:
the first failing condition decides; none propagates only if reached. -/
def evalConds (e : EmailV) : List (List Char × Cond) → Option Bool
  | [] => some true
  | (f, c) :: rest =>
    match evalFieldCond e f c with
    | some false => some false
    | some true => evalConds e rest
    | none => none

/-- Model of WebhookRouter.evaluateRule (webhookRouter.js 77-124): empty
conditions always match, otherwise all conditions must match. -/
def evaluateRule (r : Rule) (e : EmailV) : Option Bool :=
  if r.conditions.isEmpty then some true
  else evalConds e r.conditions

/-- The priority the code uses for sorting and for the routed entry:
rule.priority or 999, where the JavaScript or-default also replaces a
falsy priority of 0. -/
def jsPriority (r : Rule) : Int :=
  match r.priority with
  | some p => if p = 0 then 999 else p
  | none => 999

/-- The rule name the code reports: rule.name or unnamed, with the same
falsy treatment of an empty name. -/
def jsRuleName (r : Rule) : List Char :=
  match r.name with
  | some s => if s.isEmpty then ("unnamed").data else s
  | none => ("unnamed").data

/-- The comparator of WebhookRouter.parseRules (webhookRouter.js 32):
ascending (a.priority or 999) minus (b.priority or 999). -/
def ruleLE (a b : Rule) : Prop := jsPriority a ≤ jsPriority b

instance : DecidableRel ruleLE :=
  fun a b => inferInstanceAs (Decidable (jsPriority a ≤ jsPriority b))

instance : IsTotal Rule ruleLE := ⟨fun a b => Int.le_total (jsPriority a) (jsPriority b)⟩

instance : IsTrans Rule ruleLE := ⟨fun _ _ _ hab hbc => le_trans hab hbc⟩

/-- Model of the sort in WebhookRouter.parseRules (webhookRouter.js 32).
Array.prototype.sort is stable, which insertion sort reproduces. -/
def sortRules (rules : List Rule) : List Rule :=
  List.insertionSort ruleLE rules

/-- One routed target: webhook, ruleName, priority
(webhookRouter.js 171-175 and 187-191). -/
structure Target where
  webhook : List Char
  ruleName : List Char
  priority : Int
deriving DecidableEq, Repr

/-- The target pushed for a matched rule. -/
def mkTarget (r : Rule) : Target :=
  { webhook := r.webhook, ruleName := jsRuleName r, priority := jsPriority r }

/-- The synthesized default target (webhookRouter.js 187-191). -/
def defaultTarget (d : List Char) : Target :=
  { webhook := d, ruleName := ("default").data, priority := 9999 }

/-- The rule walk of WebhookRouter.route (webhookRouter.js 167-182):
append every matching rule's target and stop after a match that has
stopProcessing.  none propagates from an evaluated rule outside the
modelled regex fragment. -/
def routeWalk (e : EmailV) : List Rule → Option (List Target)
  | [] => some []
  | r :: rest =>
    match evaluateRule r e with
    | none => none
    | some false => routeWalk e rest
    | some true =>
      if r.stopProcessing then some [mkTarget r]
      else (routeWalk e rest).map (fun ts => mkTarget r :: ts)

/-- Model of WebhookRouter.route (webhookRouter.js 163-195) over the
sorted rules held by the router: walk the rules; if nothing matched and
the default webhook is configured (truthy), use the default target. -/
def route (rules : List Rule) (defaultWebhook : Option (List Char)) (e : EmailV) :
    Option (List Target) :=
  (routeWalk e (sortRules rules)).map (fun matched =>
    if matched.isEmpty then
      match defaultWebhook with
      | some d => if d.isEmpty then [] else [defaultTarget d]
      | none => []
    else matched)

/-! ## emailSecurity.js -/

/-- String.prototype.includes: does the haystack contain the needle as a
contiguous substring. -/
def jsIncludes (hay needle : List Char) : Bool :=
  hay.tails.any (fun t => needle.isPrefixOf t)

/-- Model of getAuthenticationResultsHeader (emailSecurity.js 24-34): no
headers map gives the empty string; an array value joins its String()
conversions with a semicolon and a space; otherwise a truthy value is
String()-converted and a falsy one gives the empty string. -/
def getAuthenticationResultsHeader (e : EmailV) : List Char :=
  match e.headers with
  | none => []
  | some hm =>
    match headerGet hm (("authentication-results").data) with
    | .arr xs => joinWith (';' :: [' ']) (xs.map primToString)
    | v => if jsTruthy v then jsToString v else []

/-- Model of hasRequiredAuthResults (emailSecurity.js 36-43): an empty
requirement list accepts; otherwise every required token must be a
substring of the lowercased concatenated header value.  Note the code
lowercases only the header, not the tokens. -/
def hasRequiredAuthResults (e : EmailV) (requiredResults : List (List Char)) : Bool :=
  if requiredResults.isEmpty then true
  else
    requiredResults.all (fun t => jsIncludes (lcStr (getAuthenticationResultsHeader e)) t)

/-- The auth-results check as the claim states it: a case-insensitive
substring match, insensitive to the case of the header value and of the
required tokens alike.  Kept for comparison with the code's check. -/
def claimedAuthResultsCheck (e : EmailV) (requiredResults : List (List Char)) : Bool :=
  if requiredResults.isEmpty then true
  else
    requiredResults.all (fun t =>
      jsIncludes (lcStr (getAuthenticationResultsHeader e)) (lcStr t))

/-! ## SlidingWindowRateLimiter (rateLimiter.js, webhookService.js 347-364) -/

/-- The limiter's configuration and per-key state: the window length, the
cap, and the recorded hit timestamps per key. -/
structure RateLimiter where
  windowMs : Int
  maxHits : Nat
  hitsByKey : List (List Char × List Int)
deriving Repr

/-- The stored hit list for a key, or empty. -/
def hitsFor (rl : RateLimiter) (key : List Char) : List Int :=
  (rl.hitsByKey.lookup key).getD []

/-- Replace the hit list stored for a key. -/
def setHits (rl : RateLimiter) (key : List Char) (hits : List Int) : RateLimiter :=
  { rl with hitsByKey := (key, hits) :: rl.hitsByKey.eraseP (fun kv => kv.1 = key) }

/-- Model of SlidingWindowRateLimiter.isAllowed (rateLimiter.js 354-363):
keep the hits newer than now minus the window, record the current hit, and
admit while the kept count stays at or below maxHits. -/
def isAllowed (rl : RateLimiter) (key : List Char) (now : Int) : Bool × RateLimiter :=
  let windowStart := now - rl.windowMs
  let previousHits := hitsFor rl key
  let recentHits := previousHits.filter (fun t => windowStart < t) ++ [now]
  (recentHits.length ≤ rl.maxHits, setHits rl key recentHits)

/-- The hits of a key that lie inside the window ending at now (strictly
newer than now minus the window), before the current attempt is counted. -/
def inWindowCount (rl : RateLimiter) (key : List Char) (now : Int) : Nat :=
  ((hitsFor rl key).filter (fun t => now - rl.windowMs < t)).length

/-! ## s3Service.uploadToS3 (s3Service.js 13-85) -/

/-- An attachment as the storage tier receives it. -/
structure Attachment where
  filename : List Char
  contentType : List Char
  size : Nat
  content : List Nat
deriving Repr

/-- The configuration uploadToS3 reads: the size cap and whether the
primary object store is configured. -/
structure StorageConfig where
  maxFileSize : Nat
  s3Configured : Bool
deriving Repr

/-- The backends uploadToS3 can invoke, recorded in call order. -/
inductive BackendCall where
  | s3Upload
  | localSave
deriving DecidableEq, Repr

/-- The outcome of one storage attempt, mirroring the object the source
returns: location, storageType, and for a thrown error the message. -/
structure StoredResult where
  location : Option (List Char)
  storageType : List Char
deriving DecidableEq, Repr

/-- The environment of one uploadToS3 run, standing for the awaited
external calls: the primary upload result (a URL on success, none on
failure) and the local save result (a path on success, none on failure). -/
structure StorageOracle where
  s3Result : Option (List Char)
  localResult : Option (List Char)
deriving Repr

/-- Model of uploadToS3 (s3Service.js 13-85).  Returns the result (or the
thrown error message) together with the list of backend calls made:
an attachment over the size cap is skipped with no backend call;
without a configured primary, save locally; otherwise try the primary
and fall back to local storage on failure. -/
def uploadToS3 (cfg : StorageConfig) (att : Attachment) (oracle : StorageOracle) :
    Except (List Char) StoredResult × List BackendCall :=
  if att.size > cfg.maxFileSize then
    (.ok { location := none, storageType := ("skipped").data }, [])
  else if !cfg.s3Configured then
    match oracle.localResult with
    | some path => (.ok { location := some path, storageType := ("local").data }, [.localSave])
    | none => (.error ("Local storage failed").data, [.localSave])
  else
    match oracle.s3Result with
    | some url => (.ok { location := some url, storageType := ("s3").data }, [.s3Upload])
    | none =>
      match oracle.localResult with
      | some path =>
        (.ok { location := some path, storageType := ("local").data },
          [.s3Upload, .localSave])
      | none => (.error ("Both S3 and local storage failed").data, [.s3Upload, .localSave])

/-! ## webhookService.sendToWebhook (webhookService.js 8-103) -/

/-- The outcome of one webhook POST: a 2xx response with its status, or a
failure with the error message and the response status when one exists. -/
inductive PostOutcome where
  | success (status : Nat)
  | failure (message : List Char) (status : Option Nat)
deriving Repr

/-- One per-target accounting entry (webhookService.js 57-75). -/
structure TargetResult where
  webhook : List Char
  ruleName : List Char
  status : Option Nat
  success : Bool
  error : Option (List Char)
deriving DecidableEq, Repr

/-- The entry recorded for one target given its POST outcome. -/
def mkTargetResult (t : Target) : PostOutcome → TargetResult
  | .success st =>
    { webhook := t.webhook, ruleName := t.ruleName, status := some st,
      success := true, error := none }
  | .failure msg st =>
    { webhook := t.webhook, ruleName := t.ruleName, status := st,
      success := false, error := some msg }

/-- The value sendToWebhook returns on (partial or full) success
(webhookService.js 96-102). -/
structure DispatchSummary where
  totalWebhooks : Nat
  successful : Nat
  failed : Nat
  results : List TargetResult
  failedWebhooks : List (List Char)
deriving DecidableEq, Repr

/-- The error sendToWebhook throws when every target failed
(webhookService.js 86-92): the message, the per-target results and the
failed webhook list kept for retry. -/
structure DispatchError where
  results : List TargetResult
  failedWebhooks : List (List Char)
deriving DecidableEq, Repr

/-- Model of the dispatch loop and accounting of sendToWebhook
(webhookService.js 33-103) over an already-routed target list, with the
awaited POST outcomes supplied as an oracle: accumulate one entry per
target, throw with the full failed list when every target failed, and
otherwise return the summary whose failedWebhooks holds exactly the
failed subset. -/
def dispatchTargets (targets : List Target) (post : Target → PostOutcome) :
    Except DispatchError DispatchSummary :=
  let results := targets.map (fun t => mkTargetResult t (post t))
  let errors := results.filter (fun r => !r.success)
  if errors.length = targets.length then
    .error { results := results, failedWebhooks := errors.map (fun r => r.webhook) }
  else
    .ok { totalWebhooks := targets.length,
          successful := (results.filter (fun r => r.success)).length,
          failed := errors.length,
          results := results,
          failedWebhooks := errors.map (fun r => r.webhook) }

/-! ## DurableQueue (durableQueue.js) and its crash behaviour -/

/-- The queue directory as an association list from file name to file
content; a later write for the same name shadows an earlier one. -/
abbrev QueueFS : Type := List (List Char × List Char)

/-- Read a file: the most recent content written under the name. -/
def fsRead (fs : QueueFS) (name : List Char) : Option (List Char) :=
  fs.lookup name

/-- Complete a write: the new content is visible under the name. -/
def fsWrite (fs : QueueFS) (name : List Char) (content : List Char) : QueueFS :=
  (name, content) :: fs

/-- The serialized task file DurableQueue.create writes
(durableQueue.js 269-277): the JSON object holding the id, the creation
timestamp and the payload fields.  The parsed email and the
failedWebhooks value are carried as their already-serialized JSON
fragments. -/
def taskJson (id createdAt parsedJson failedWebhooksJson : List Char) : List Char :=
  ("\x7b\x22id\x22:\x22").data ++ id ++
  ("\x22,\x22createdAt\x22:\x22").data ++ createdAt ++
  ("\x22,\x22parsed\x22:").data ++ parsedJson ++
  (",\x22failedWebhooks\x22:").data ++ failedWebhooksJson ++
  ("\x7d").data

/-- The task file name for an id (durableQueue.js 324-326). -/
def taskFileName (id : List Char) : List Char := id ++ (".json").data

/-- Model of DurableQueue.create when the write completes
(durableQueue.js 266-279): one fs.writeFile of the serialized task. -/
def durableCreate (fs : QueueFS) (id createdAt parsedJson fwJson : List Char) : QueueFS :=
  fsWrite fs (taskFileName id) (taskJson id createdAt parsedJson fwJson)

/-- Model of DurableQueue.get (durableQueue.js 281-286): the content of
the task file, none when it does not exist. -/
def durableGet (fs : QueueFS) (id : List Char) : Option (List Char) :=
  fsRead fs (taskFileName id)

/-- Crash semantics of the plain fs.writeFile the queue uses: the file is
truncated and then written front to back, so a crash can leave any prefix
of the new content on disk.  The listed file systems are the states a
reader can observe if the process dies during the write (the final one is
the completed write). -/
def writeFileCrashStates (fs : QueueFS) (name : List Char) (content : List Char) :
    List QueueFS :=
  (List.range (content.length + 1)).map (fun k => fsWrite fs name (content.take k))

/-- The observable on-disk states of DurableQueue.create if the process
crashes during the write (durableQueue.js 277). -/
def durableCreateCrashStates (fs : QueueFS) (id createdAt parsedJson fwJson : List Char) :
    List QueueFS :=
  writeFileCrashStates fs (taskFileName id) (taskJson id createdAt parsedJson fwJson)

/-! ## SHA-256 and HMAC-SHA256 (FIPS 180-4, RFC 2104)

An executable model of Node's crypto.createHmac over byte lists
(bytes are Nat with explicit reduction mod 256 / mod 2^32). -/

/-- Wrap to 32 bits. -/
def w32 (x : Nat) : Nat := x % 4294967296

/-- Rotate a 32-bit word right by n. -/
def rotr32 (n x : Nat) : Nat := w32 ((x >>> n) ||| (x <<< (32 - n)))

def mask32 : Nat := 4294967295

def shaCh (x y z : Nat) : Nat := (x &&& y) ^^^ ((x ^^^ mask32) &&& z)

def shaMaj (x y z : Nat) : Nat := (x &&& y) ^^^ (x &&& z) ^^^ (y &&& z)

def bsig0 (x : Nat) : Nat := rotr32 2 x ^^^ rotr32 13 x ^^^ rotr32 22 x

def bsig1 (x : Nat) : Nat := rotr32 6 x ^^^ rotr32 11 x ^^^ rotr32 25 x

def ssig0 (x : Nat) : Nat := rotr32 7 x ^^^ rotr32 18 x ^^^ (x >>> 3)

def ssig1 (x : Nat) : Nat := rotr32 17 x ^^^ rotr32 19 x ^^^ (x >>> 10)

def shaK : List Nat := [
  1116352408, 1899447441, 3049323471, 3921009573, 961987163, 1508970993,
  2453635748, 2870763221, 3624381080, 310598401, 607225278, 1426881987,
  1925078388, 2162078206, 2614888103, 3248222580, 3835390401, 4022224774,
  264347078, 604807628, 770255983, 1249150122, 1555081692, 1996064986,
  2554220882, 2821834349, 2952996808, 3210313671, 3336571891, 3584528711,
  113926993, 338241895, 666307205, 773529912, 1294757372, 1396182291,
  1695183700, 1986661051, 2177026350, 2456956037, 2730485921, 2820302411,
  3259730800, 3345764771, 3516065817, 3600352804, 4094571909, 275423344,
  430227734, 506948616, 659060556, 883997877, 958139571, 1322822218,
  1537002063, 1747873779, 1955562222, 2024104815, 2227730452, 2361852424,
  2428436474, 2756734187, 3204031479, 3329325298]

def shaH0 : List Nat := [
  1779033703, 3144134277, 1013904242, 2773480762, 1359893119, 2600822924,
  528734635, 1541459225]

/-- Big-endian bytes of a 64-bit quantity. -/
def be64 (n : Nat) : List Nat :=
  (List.range 8).map (fun i => (n >>> (8 * (7 - i))) % 256)

/-- Big-endian bytes of a 32-bit word. -/
def be32 (n : Nat) : List Nat :=
  (List.range 4).map (fun i => (n >>> (8 * (3 - i))) % 256)

/-- SHA-256 message padding: a 0x80 byte, zeros to 56 mod 64, and the
bit length as 8 big-endian bytes. -/
def shaPad (msg : List Nat) : List Nat :=
  let L := msg.length
  let k := (120 - ((L + 1) % 64)) % 64
  msg ++ [0x80] ++ List.replicate k 0 ++ be64 (8 * L)

/-- Group padded bytes into big-endian 32-bit words. -/
def bytesToWords (bs : List Nat) : List Nat :=
  (List.range (bs.length / 4)).map (fun i =>
    (bs.getD (4 * i) 0) * 16777216 + (bs.getD (4 * i + 1) 0) * 65536 +
    (bs.getD (4 * i + 2) 0) * 256 + bs.getD (4 * i + 3) 0)

/-- Extend a 16-word block to the 64-word message schedule. -/
def extendW (w : List Nat) : Nat → List Nat
  | 0 => w
  | n + 1 =>
    extendW (w ++ [w32 (ssig1 (w.getD (w.length - 2) 0) + w.getD (w.length - 7) 0 +
      ssig0 (w.getD (w.length - 15) 0) + w.getD (w.length - 16) 0)]) n

/-- One compression round. -/
def shaRound (wSched : List Nat) (st : List Nat) (t : Nat) : List Nat :=
  let a := st.getD 0 0
  let b := st.getD 1 0
  let c := st.getD 2 0
  let d := st.getD 3 0
  let e := st.getD 4 0
  let f := st.getD 5 0
  let g := st.getD 6 0
  let h := st.getD 7 0
  let t1 := w32 (h + bsig1 e + shaCh e f g + shaK.getD t 0 + wSched.getD t 0)
  let t2 := w32 (bsig0 a + shaMaj a b c)
  [w32 (t1 + t2), a, b, c, w32 (d + t1), e, f, g]

/-- Compress one 16-word block into the running hash state. -/
def shaCompress (state block : List Nat) : List Nat :=
  let wSched := extendW block 48
  let final := (List.range 64).foldl (shaRound wSched) state
  List.zipWith (fun x y => w32 (x + y)) state final

/-- SHA-256 of a byte list. -/
def sha256 (msg : List Nat) : List Nat :=
  let words := bytesToWords (shaPad msg)
  let nBlocks := words.length / 16
  let state := (List.range nBlocks).foldl
    (fun st i => shaCompress st ((List.range 16).map (fun j => words.getD (16 * i + j) 0)))
    shaH0
  (state.map be32).flatten

/-- HMAC-SHA256 (RFC 2104) with the 64-byte SHA-256 block size. -/
def hmacSha256 (key msg : List Nat) : List Nat :=
  let k0 := if key.length > 64 then sha256 key else key
  let k1 := k0 ++ List.replicate (64 - k0.length) 0
  sha256 ((k1.map (fun b => b ^^^ 0x5c)) ++ sha256 ((k1.map (fun b => b ^^^ 0x36)) ++ msg))

/-- The lowercase hexadecimal digit character of a value below 16: the
digits start at code point 48, the letters at 97. -/
def hexDigitChar (n : Nat) : Char :=
  if n < 10 then Char.ofNat (48 + n) else Char.ofNat (87 + n)

/-- The two hex characters of one byte. -/
def hexByte (b : Nat) : List Char := [hexDigitChar (b / 16), hexDigitChar (b % 16)]

/-- Lowercase hex encoding of a byte list, as Buffer.prototype.toString hex. -/
def bytesToHex (bs : List Nat) : List Char := (bs.map hexByte).flatten

/-- The value of one hex digit character (lower or upper case). -/
def unhexDigit (c : Char) : Nat :=
  let v := c.toLower.toNat
  if 48 ≤ v ∧ v ≤ 57 then v - 48
  else if 97 ≤ v ∧ v ≤ 102 then v - 87
  else 0

/-- Decode a hex string into bytes, as Buffer.from(s, hex). -/
def hexToBytes : List Char → List Nat
  | c1 :: c2 :: rest => (16 * unhexDigit c1 + unhexDigit c2) :: hexToBytes rest
  | _ => []

/-- UTF-8 bytes of an ASCII string (the strings signed and hashed here
are ASCII; for them UTF-8 is the identity on code points). -/
def asciiBytes (s : List Char) : List Nat := s.map (fun c => c.toNat % 256)

/-- Decimal string of a natural number. -/
def natDecStr (n : Nat) : List Char := (Nat.repr n).data

/-! ## Webhook payload signing

Modelled from the spec: the webhook signing code is not present under
src (only its unit test and the spec describe it); per the spec, when a
shared secret is configured the dispatcher adds to each POST the headers
X-Inbound-Email-Timestamp (current millis), X-Inbound-Email-Signature
(sha256= followed by the hex HMAC-SHA256 over "timestamp.payloadJson"
using the secret) and X-Inbound-Email-Signature-Version (v1). -/

/-- Modelled from the spec: the string that is MACed, the current millis,
a dot and the payload JSON. -/
def signaturePayload (nowMs : Nat) (payloadJson : List Char) : List Char :=
  natDecStr nowMs ++ '.' :: payloadJson

/-- Modelled from the spec: the signature header value. -/
def webhookSignature (secret : List Char) (nowMs : Nat) (payloadJson : List Char) : List Char :=
  ("sha256=").data ++
    bytesToHex (hmacSha256 (asciiBytes secret) (asciiBytes (signaturePayload nowMs payloadJson)))

/-- Modelled from the spec: the outgoing request headers of one webhook
POST — Content-Type and User-Agent always (webhookService.js 51-54), and
the signature triple exactly when a shared secret is configured. -/
def webhookRequestHeaders (secret : Option (List Char)) (nowMs : Nat)
    (payloadJson : List Char) : List (List Char × List Char) :=
  [(("Content-Type").data, ("application/json").data),
   (("User-Agent").data, ("inbound-email-service/1.0").data)] ++
  (match secret with
   | some k =>
     [(("X-Inbound-Email-Timestamp").data, natDecStr nowMs),
      (("X-Inbound-Email-Signature").data, webhookSignature k nowMs payloadJson),
      (("X-Inbound-Email-Signature-Version").data, ("v1").data)]
   | none => [])

/-! ## AES-256-GCM (FIPS 197, NIST SP 800-38D)

An executable model of Node's crypto.createCipheriv aes-256-gcm used by
LocalStorage.encryptContent / decryptContent. -/

/-- Multiplication in GF(2^8) with the AES polynomial x^8+x^4+x^3+x+1. -/
def gmul (a b : Nat) : Nat :=
  (((List.range 8).foldl (fun s _ =>
      let r := s.1
      let aa := s.2.1
      let bb := s.2.2
      (if bb % 2 = 1 then r ^^^ aa else r,
       ((if aa ≥ 128 then (aa * 2) ^^^ 0x1b else aa * 2) % 256, bb >>> 1)))
    (0, (a % 256, b % 256))).1) % 256

/-- The AES S-box. -/
def sbox : List Nat := [
  0x63, 0x7c, 0x77, 0x7b, 0xf2, 0x6b, 0x6f, 0xc5, 0x30, 0x01, 0x67, 0x2b, 0xfe, 0xd7, 0xab, 0x76,
  0xca, 0x82, 0xc9, 0x7d, 0xfa, 0x59, 0x47, 0xf0, 0xad, 0xd4, 0xa2, 0xaf, 0x9c, 0xa4, 0x72, 0xc0,
  0xb7, 0xfd, 0x93, 0x26, 0x36, 0x3f, 0xf7, 0xcc, 0x34, 0xa5, 0xe5, 0xf1, 0x71, 0xd8, 0x31, 0x15,
  0x04, 0xc7, 0x23, 0xc3, 0x18, 0x96, 0x05, 0x9a, 0x07, 0x12, 0x80, 0xe2, 0xeb, 0x27, 0xb2, 0x75,
  0x09, 0x83, 0x2c, 0x1a, 0x1b, 0x6e, 0x5a, 0xa0, 0x52, 0x3b, 0xd6, 0xb3, 0x29, 0xe3, 0x2f, 0x84,
  0x53, 0xd1, 0x00, 0xed, 0x20, 0xfc, 0xb1, 0x5b, 0x6a, 0xcb, 0xbe, 0x39, 0x4a, 0x4c, 0x58, 0xcf,
  0xd0, 0xef, 0xaa, 0xfb, 0x43, 0x4d, 0x33, 0x85, 0x45, 0xf9, 0x02, 0x7f, 0x50, 0x3c, 0x9f, 0xa8,
  0x51, 0xa3, 0x40, 0x8f, 0x92, 0x9d, 0x38, 0xf5, 0xbc, 0xb6, 0xda, 0x21, 0x10, 0xff, 0xf3, 0xd2,
  0xcd, 0x0c, 0x13, 0xec, 0x5f, 0x97, 0x44, 0x17, 0xc4, 0xa7, 0x7e, 0x3d, 0x64, 0x5d, 0x19, 0x73,
  0x60, 0x81, 0x4f, 0xdc, 0x22, 0x2a, 0x90, 0x88, 0x46, 0xee, 0xb8, 0x14, 0xde, 0x5e, 0x0b, 0xdb,
  0xe0, 0x32, 0x3a, 0x0a, 0x49, 0x06, 0x24, 0x5c, 0xc2, 0xd3, 0xac, 0x62, 0x91, 0x95, 0xe4, 0x79,
  0xe7, 0xc8, 0x37, 0x6d, 0x8d, 0xd5, 0x4e, 0xa9, 0x6c, 0x56, 0xf4, 0xea, 0x65, 0x7a, 0xae, 0x08,
  0xba, 0x78, 0x25, 0x2e, 0x1c, 0xa6, 0xb4, 0xc6, 0xe8, 0xdd, 0x74, 0x1f, 0x4b, 0xbd, 0x8b, 0x8a,
  0x70, 0x3e, 0xb5, 0x66, 0x48, 0x03, 0xf6, 0x0e, 0x61, 0x35, 0x57, 0xb9, 0x86, 0xc1, 0x1d, 0x9e,
  0xe1, 0xf8, 0x98, 0x11, 0x69, 0xd9, 0x8e, 0x94, 0x9b, 0x1e, 0x87, 0xe9, 0xce, 0x55, 0x28, 0xdf,
  0x8c, 0xa1, 0x89, 0x0d, 0xbf, 0xe6, 0x42, 0x68, 0x41, 0x99, 0x2d, 0x0f, 0xb0, 0x54, 0xbb, 0x16]

def sboxAt (b : Nat) : Nat := sbox.getD (b % 256) 0

/-- S-box applied to each byte of a 32-bit word. -/
def subWord (w : Nat) : Nat :=
  sboxAt ((w >>> 24) % 256) * 16777216 + sboxAt ((w >>> 16) % 256) * 65536 +
  sboxAt ((w >>> 8) % 256) * 256 + sboxAt (w % 256)

/-- Rotate a 32-bit word left by one byte. -/
def rotWord (w : Nat) : Nat := w32 ((w <<< 8) ||| (w >>> 24))

def rcon : List Nat :=
  [0x01000000, 0x02000000, 0x04000000, 0x08000000, 0x10000000, 0x20000000, 0x40000000]

/-- Append the next expanded key word (AES-256 schedule, Nk = 8). -/
def expandKeyAux (ws : List Nat) : Nat → List Nat
  | 0 => ws
  | n + 1 =>
    let i := ws.length
    let temp := ws.getD (i - 1) 0
    let temp2 :=
      if i % 8 = 0 then subWord (rotWord temp) ^^^ rcon.getD (i / 8 - 1) 0
      else if i % 8 = 4 then subWord temp
      else temp
    expandKeyAux (ws ++ [ws.getD (i - 8) 0 ^^^ temp2]) n

/-- The 60 words of the AES-256 key schedule from 32 key bytes. -/
def expandKey (key : List Nat) : List Nat :=
  expandKeyAux (bytesToWords key) 52

/-- The 16 round-key bytes of one round, serialized word-wise big-endian. -/
def roundKeyBytes (ws : List Nat) (round : Nat) : List Nat :=
  (List.range 16).map (fun i => (ws.getD (4 * round + i / 4) 0 >>> (8 * (3 - i % 4))) % 256)

/-- State bytes use the FIPS 197 layout: byte index r + 4c for row r,
column c. -/
def subBytesB (st : List Nat) : List Nat := st.map sboxAt

def shiftRowsB (st : List Nat) : List Nat :=
  (List.range 16).map (fun i => st.getD ((i % 4) + 4 * ((i / 4 + i % 4) % 4)) 0)

def mcCoef (r j : Nat) : Nat :=
  ([[2, 3, 1, 1], [1, 2, 3, 1], [1, 1, 2, 3], [3, 1, 1, 2]].getD r []).getD j 0

def mixColumnsB (st : List Nat) : List Nat :=
  (List.range 16).map (fun i =>
    let r := i % 4
    let c := i / 4
    gmul (mcCoef r 0) (st.getD (4 * c) 0) ^^^ gmul (mcCoef r 1) (st.getD (4 * c + 1) 0) ^^^
    gmul (mcCoef r 2) (st.getD (4 * c + 2) 0) ^^^ gmul (mcCoef r 3) (st.getD (4 * c + 3) 0))

def addRoundKeyB (st rk : List Nat) : List Nat := List.zipWith Nat.xor st rk

/-- AES-256 block encryption (14 rounds). -/
def aesEncryptBlock (key block : List Nat) : List Nat :=
  let ws := expandKey key
  let st0 := addRoundKeyB block (roundKeyBytes ws 0)
  let stMid := (List.range 13).foldl
    (fun st r => addRoundKeyB (mixColumnsB (shiftRowsB (subBytesB st))) (roundKeyBytes ws (r + 1)))
    st0
  addRoundKeyB (shiftRowsB (subBytesB stMid)) (roundKeyBytes ws 14)

/-- A 16-byte block as a 128-bit big-endian natural. -/
def bytesToBlockNat (bs : List Nat) : Nat :=
  bs.foldl (fun acc b => acc * 256 + b % 256) 0

/-- The 16 big-endian bytes of a 128-bit natural. -/
def blockNatToBytes (x : Nat) : List Nat :=
  (List.range 16).map (fun i => (x >>> (8 * (15 - i))) % 256)

/-- Multiplication in GF(2^128) as specified by SP 800-38D (R = 0xe1
followed by 120 zero bits). -/
def mulGF128 (x y : Nat) : Nat :=
  (((List.range 128).foldl (fun zv i =>
      let z := zv.1
      let v := zv.2
      (if x.testBit (127 - i) then z ^^^ v else z,
       if v % 2 = 0 then v >>> 1 else (v >>> 1) ^^^ (0xe1 <<< 120)))
    (0, y)).1)

/-- GHASH over whole blocks with hash subkey h. -/
def ghash (h : Nat) (blocks : List Nat) : Nat :=
  blocks.foldl (fun y b => mulGF128 (y ^^^ b) h) 0

/-- Zero-pad a short block to 16 bytes. -/
def padTo16 (bs : List Nat) : List Nat := bs ++ List.replicate (16 - bs.length) 0

/-- Split bytes into zero-padded 16-byte chunks (fuel-driven so the
definition unfolds by computation). -/
def chunksAux : Nat → List Nat → List (List Nat)
  | 0, _ => []
  | _, [] => []
  | n + 1, l => padTo16 (l.take 16) :: chunksAux n (l.drop 16)

def chunks16 (l : List Nat) : List (List Nat) := chunksAux l.length l

/-- The pre-counter block for a 12-byte IV: IV followed by 0,0,0,1. -/
def j0Nat (iv : List Nat) : Nat := bytesToBlockNat (iv ++ [0, 0, 0, 1])

/-- The i-th counter block: the top 96 bits of J0 with the low 32 bits
incremented by i mod 2^32. -/
def ctrNat (j0 i : Nat) : Nat :=
  (j0 / 4294967296) * 4294967296 + ((j0 + i) % 4294967296)

/-- The first n bytes of the GCM keystream (counter blocks start at
inc32 of J0). -/
def gcmKeystream (key iv : List Nat) (n : Nat) : List Nat :=
  (List.range n).map (fun i =>
    (aesEncryptBlock key (blockNatToBytes (ctrNat (j0Nat iv) (1 + i / 16)))).getD (i % 16) 0)

/-- GCM encryption of the plaintext (the ciphertext has the plaintext's
length). -/
def gcmEncrypt (key iv pt : List Nat) : List Nat :=
  List.zipWith Nat.xor pt (gcmKeystream key iv pt.length)

/-- The GCM authentication tag over the ciphertext with no additional
authenticated data. -/
def gcmTag (key iv ct : List Nat) : List Nat :=
  let h := bytesToBlockNat (aesEncryptBlock key (List.replicate 16 0))
  let s := ghash h ((chunks16 ct).map bytesToBlockNat ++ [8 * ct.length])
  blockNatToBytes (s ^^^ bytesToBlockNat (aesEncryptBlock key (blockNatToBytes (j0Nat iv))))

/-! ## LocalStorage (localStorage.js) -/

/-- The encryption descriptor recorded in the sibling meta file
(localStorage.js 114-121): algorithm, hex IV and hex auth tag. -/
structure EncInfo where
  algorithm : List Char
  iv : List Char
  authTag : List Char
deriving Repr

/-- The sibling meta file (localStorage.js 47-55). -/
structure MetaFile where
  fileId : List Char
  originalName : List Char
  contentType : List Char
  size : Nat
  encrypted : Bool
  encryption : Option EncInfo
deriving Repr

/-- A stored file: attachment bytes or a meta record (the meta file is
JSON on disk; the model keeps it structured). -/
inductive FEntry where
  | bytes (bs : List Nat)
  | meta (m : MetaFile)
deriving Repr

/-- The attachment directory as an association list; a later write
shadows an earlier one. -/
abbrev AttachFS : Type := List (List Char × FEntry)

/-- Model of LocalStorage.encryptContent (localStorage.js 104-122): with
no key the content passes through; with a key, AES-256-GCM under a fresh
12-byte IV, recording algorithm, hex IV and hex auth tag. -/
def encryptContent (key : Option (List Nat)) (iv content : List Nat) :
    List Nat × Option EncInfo :=
  match key with
  | none => (content, none)
  | some k =>
    let ct := gcmEncrypt k iv content
    (ct, some { algorithm := ("aes-256-gcm").data, iv := bytesToHex iv,
                authTag := bytesToHex (gcmTag k iv ct) })

/-- Model of LocalStorage.decryptContent (localStorage.js 124-140):
unencrypted content passes through; otherwise the key and the recorded
IV and auth tag must be present, the ciphertext is decrypted with the
same keystream, and a recomputed tag that differs from the recorded one
fails (the final() authentication error). -/
def decryptContent (key : Option (List Nat)) (content : List Nat) (m : MetaFile) :
    Except (List Char) (List Nat) :=
  if !m.encrypted then .ok content
  else
    match key, m.encryption with
    | some k, some enc =>
      if enc.iv.isEmpty || enc.authTag.isEmpty then
        .error ("Encrypted local file is missing decrypt configuration").data
      else
        let ivB := hexToBytes enc.iv
        if gcmTag k ivB content = hexToBytes enc.authTag then
          .ok (List.zipWith Nat.xor content (gcmKeystream k ivB content.length))
        else .error ("Unsupported state or unable to authenticate data").data
    | _, _ => .error ("Encrypted local file is missing decrypt configuration").data

/-- Model of LocalStorage.generateFilename (localStorage.js 76-82); the
basename-plus-extension split recomposes to the original name, so the
model concatenates directly.  The timestamp and the 8 random bytes are
passed in. -/
def generateFilename (ts : Nat) (rand : List Nat) (originalName : List Char) : List Char :=
  natDecStr ts ++ '-' :: (bytesToHex rand ++ '-' :: originalName)

/-- Model of LocalStorage.save (localStorage.js 36-74) on the
happy path: encrypt, write the data file, then write the sibling meta
file.  Returns the new directory state and the saved location. -/
def localSave (key : Option (List Nat)) (fs : AttachFS) (basePath : List Char)
    (att : Attachment) (ts : Nat) (rand iv : List Nat) : AttachFS × List Char :=
  let filename := generateFilename ts rand att.filename
  let filepath := basePath ++ '/' :: filename
  let enc := encryptContent key iv att.content
  let metadata : MetaFile :=
    { fileId := filename, originalName := att.filename, contentType := att.contentType,
      size := att.size, encrypted := enc.2.isSome, encryption := enc.2 }
  ((filepath ++ (".meta").data, FEntry.meta metadata) :: (filepath, FEntry.bytes enc.1) :: fs,
   filepath)

/-- Model of LocalStorage.read (localStorage.js 229-242): read content
and meta together and decrypt. -/
def localRead (key : Option (List Nat)) (fs : AttachFS) (filepath : List Char) :
    Except (List Char) (List Nat) :=
  match fs.lookup filepath, fs.lookup (filepath ++ (".meta").data) with
  | some (.bytes content), some (.meta m) => decryptContent key content m
  | _, _ => .error ("ENOENT").data

/-! ## Claim-side comparison definitions and sample inputs -/

/-- The wildcard conversion as the claim describes it, first step: escape
every regex metacharacter with a backslash. -/
def escapeRegexChars (s : List Char) : List Char :=
  (s.map (fun c => if c ∈ regexMeta then ['\\', c] else [c])).flatten

/-- The wildcard conversion as the claim describes it, second step:
replace every escaped asterisk with dot-asterisk. -/
def replaceEscapedStar : List Char → List Char
  | [] => []
  | [c] => [c]
  | c1 :: c2 :: rest =>
    if c1 = '\\' ∧ c2 = '*' then '.' :: '*' :: replaceEscapedStar rest
    else c1 :: replaceEscapedStar (c2 :: rest)

/-- The wildcard matcher as the claim describes it: escape the regex
metacharacters, replace the escaped asterisks with dot-asterisk, then
match anchored and case-insensitively. -/
def claimedWildcardTest (cond value : List Char) : Option Bool :=
  jsTestAnchoredCI (replaceEscapedStar (escapeRegexChars cond)) value

/-- The rules of a list that match the email (by the embedded
evaluateRule). -/
def matchedRules (e : EmailV) (rules : List Rule) : List Rule :=
  rules.filter (fun r => evaluateRule r e = some true)

/-- The prefix of a matched-rule list that ends at the first rule with
stopProcessing (all of it when none stops). -/
def takeThroughStop : List Rule → List Rule
  | [] => []
  | r :: rs => if r.stopProcessing then [r] else r :: takeThroughStop rs

/-- Did the POST of one target succeed. -/
def isSuccessOutcome : PostOutcome → Bool
  | .success _ => true
  | .failure _ _ => false

/-- A minimal parsed email used by concrete witnesses. -/
def sampleEmail : EmailV :=
  { efrom := .strv ("alice@example.com").data, eto := .missing, ecc := .missing,
    subject := some ("hello world").data, attachmentInfo := [], headers := none,
    extra := .obj [] }

/-- An email whose Authentication-Results header value is upper-case,
used to compare the code's check with the claimed case-insensitive one. -/
def upperAuthEmail : EmailV :=
  { efrom := .missing, eto := .missing, ecc := .missing, subject := none,
    attachmentInfo := [],
    headers := some [(("authentication-results").data, .prim (.jstr ("SPF=PASS").data))],
    extra := .obj [] }

/-- A rule whose priority is explicitly 0, exposing the JavaScript falsy
default in rule.priority or 999. -/
def zeroPriorityRule : Rule :=
  { name := some ("r").data, conditions := [], webhook := ("https://w.example").data,
    priority := some 0, stopProcessing := false }

/-- A matching rule with stopProcessing, used by the routing witness. -/
def stopRule : Rule :=
  { name := some ("A").data,
    conditions := [(("subject").data, .cstr ("*hello*").data)],
    webhook := ("https://a.example").data, priority := some 1, stopProcessing := true }

/-- A second matching rule shadowed by the stopping one. -/
def afterStopRule : Rule :=
  { name := some ("B").data,
    conditions := [(("subject").data, .cstr ("*hello*").data)],
    webhook := ("https://b.example").data, priority := some 2, stopProcessing := false }

/-- The concrete task fields of the durable-queue crash scenario. -/
def crashTaskId : List Char := ("1700000000000-a1b2c3").data

def crashTaskCreatedAt : List Char := ("2026-10-12T00:00:00.000Z").data

def crashTaskParsedJson : List Char := ("\x7b\x22subject\x22:\x22hi\x22\x7d").data

def crashTaskFwJson : List Char := ("null").data

/-- The pair of rate-limiter states exercised by the boundary witness:
a limiter with a 1000 ms window, a cap of 3 and two recorded hits. -/
def sampleLimiter : RateLimiter :=
  { windowMs := 1000, maxHits := 3,
    hitsByKey := [(("10.0.0.1").data, [100, 150])] }

/-! ## Theorems

Sanity anchors for the executable cryptography, the supporting lemmas,
and one theorem per claim (with its witness or counterexample). -/

/-- SHA-256 of the empty message (FIPS 180-4 reference value). -/
theorem sha256_empty_vector :
    bytesToHex (sha256 []) =
      ("e3b0c44298fc1c149afbf4c8996fb92427ae41e4649b934ca495991b7852b855").data := by
  decide

/-- HMAC-SHA256 reference vector, RFC 4231 test case 2. -/
theorem hmacSha256_rfc4231_case2 :
    bytesToHex (hmacSha256 (asciiBytes ("Jefe").data)
        (asciiBytes ("what do ya want for nothing?").data)) =
      ("5bdcc146bf60754e6a042426089575c75a003f089d2739839dec58b964ec3843").data := by
  decide

/-- AES-256 single-block reference vector, FIPS 197 appendix C.3. -/
theorem aes256_fips197_vector :
    bytesToHex (aesEncryptBlock
        (hexToBytes ("000102030405060708090a0b0c0d0e0f101112131415161718191a1b1c1d1e1f").data)
        (hexToBytes ("00112233445566778899aabbccddeeff").data)) =
      ("8ea2b7ca516745bfeafc49904b496089").data := by
  decide

/-- AES-256-GCM reference tag for the empty plaintext under the all-zero
key and IV (NIST GCM test vectors). -/
theorem gcm_empty_tag_vector :
    bytesToHex (gcmTag (List.replicate 32 0) (List.replicate 12 0) []) =
      ("530f8afbc74536b9a963b4f1c4cb738b").data := by
  decide

/-! ### C10: falsy resolved values never match -/

/-- C10: for every rule condition and every email, a resolved email value
that is null, undefined or the empty string makes the condition evaluate
to false — before any matcher (wildcard, regex or exact) is consulted —
so a rule with any condition on such a field can never match that email
(webhookRouter.js line 45). -/
theorem evaluateCondition_falsy_value_never_matches (cond : List Char) (v : JVal)
    (h : v = .prim .null ∨ v = .prim .undefv ∨ v = .prim (.jstr [])) :
    evaluateCondition cond v = some false := by
  rcases h with h | h | h <;> subst h <;>
    simp [evaluateCondition, jsTruthy, primTruthy]

/-- Witness for C10: the match-everything wildcard condition still fails
against an empty-string value. -/
theorem evaluateCondition_falsy_value_never_matches_witness :
    evaluateCondition ['*'] (.prim (.jstr [])) = some false :=
  evaluateCondition_falsy_value_never_matches ['*'] (.prim (.jstr []))
    (Or.inr (Or.inr rfl))

/-! ### C3: wildcard conditions are not metacharacter-escaped -/

/-- Counterexample for C3: the condition a.b* contains an asterisk, and
the claim says the dot should have been escaped first and hence match
only a literal dot.  The code converts without escaping
(webhookRouter.js 49), so against the value axbc the code's matcher
returns true while the claimed escape-then-replace matcher returns
false. -/
theorem evaluateCondition_wildcard_unescaped_dot :
    evaluateCondition ("a.b*").data (.prim (.jstr ("axbc").data)) = some true
    ∧ claimedWildcardTest ("a.b*").data ("axbc").data = some false := by
  constructor <;> decide

theorem escapeRegexChars_cons (c : Char) (rest : List Char) :
    escapeRegexChars (c :: rest) =
      (if c ∈ regexMeta then ['\\', c] else [c]) ++ escapeRegexChars rest := by
  simp [escapeRegexChars]

theorem wildcardPattern_cons (c : Char) (rest : List Char) :
    wildcardPattern (c :: rest) =
      (if c = '*' then ['.', '*'] else [c]) ++ wildcardPattern rest := by
  simp [wildcardPattern]

theorem replaceEscapedStar_cons_ne (c : Char) (l : List Char) (hc : c ≠ '\\') :
    replaceEscapedStar (c :: l) = c :: replaceEscapedStar l := by
  cases l with
  | nil => simp [replaceEscapedStar]
  | cons d l2 => simp [replaceEscapedStar, hc]

/-- On conditions made of asterisks and non-metacharacters, the claimed
escape-then-replace conversion produces exactly the pattern the code
builds by replacing asterisks alone. -/
theorem escape_replace_eq_wildcardPattern (cond : List Char)
    (hsafe : ∀ c ∈ cond, c = '*' ∨ c ∉ regexMeta) :
    replaceEscapedStar (escapeRegexChars cond) = wildcardPattern cond := by
  induction cond with
  | nil => rfl
  | cons c rest ih =>
    have hrest : ∀ x ∈ rest, x = '*' ∨ x ∉ regexMeta := fun x hx => hsafe x (by simp [hx])
    rcases hsafe c (by simp) with hstar | hmeta
    · subst hstar
      rw [escapeRegexChars_cons, wildcardPattern_cons, if_pos (by decide : ('*' : Char) ∈ regexMeta),
        if_pos rfl]
      show replaceEscapedStar ('\\' :: '*' :: escapeRegexChars rest) = _
      rw [show replaceEscapedStar ('\\' :: '*' :: escapeRegexChars rest) =
          '.' :: '*' :: replaceEscapedStar (escapeRegexChars rest) by
          simp [replaceEscapedStar], ih hrest]
      rfl
    · have hcstar : c ≠ '*' := fun h => hmeta (h ▸ (by decide : ('*' : Char) ∈ regexMeta))
      have hcbs : c ≠ '\\' := fun h => hmeta (h ▸ (by decide : ('\\' : Char) ∈ regexMeta))
      rw [escapeRegexChars_cons, wildcardPattern_cons, if_neg hmeta, if_neg hcstar]
      show replaceEscapedStar (c :: escapeRegexChars rest) = _
      rw [replaceEscapedStar_cons_ne c _ hcbs, ih hrest]
      rfl

/-- C3 amended: the code converts a wildcard condition without first
escaping regex metacharacters (webhookRouter.js 49).  Hence, for every
condition containing an asterisk and built only of asterisks and
non-metacharacter characters, and every non-empty string value, the
matcher agrees with the claimed escape-then-replace conversion (anchored,
case-insensitive, asterisk to dot-asterisk); but a condition holding a
literal metacharacter such as a dot keeps its regex meaning and matches
any character, not only itself (see the counterexample). -/
theorem evaluateCondition_wildcard_matches_claim (cond s : List Char)
    (hstar : cond.contains '*' = true)
    (hsafe : ∀ c ∈ cond, c = '*' ∨ c ∉ regexMeta)
    (hs : s ≠ []) :
    evaluateCondition cond (.prim (.jstr s)) = claimedWildcardTest cond s := by
  have hne : cond ≠ [] := by
    rintro rfl
    simp [List.contains] at hstar
  have hmem : '*' ∈ cond := by simpa using hstar
  unfold evaluateCondition claimedWildcardTest
  rw [escape_replace_eq_wildcardPattern cond hsafe]
  simp [jsTruthy, primTruthy, jsToString, primToString, hne, hs, hmem]

/-- Witness for the amended C3: a metacharacter-free wildcard condition
evaluated through the code equals the claimed conversion. -/
theorem evaluateCondition_wildcard_matches_claim_witness :
    evaluateCondition ("ab*").data (.prim (.jstr ("abxy").data)) =
      claimedWildcardTest ("ab*").data ("abxy").data :=
  evaluateCondition_wildcard_matches_claim ("ab*").data ("abxy").data
    (by decide) (by decide) (by decide)

/-! ### C4: auth-results tokens are matched against a lowercased header -/

/-- Counterexample for C4: with the Authentication-Results header value
SPF=PASS and the required token SPF=PASS, the code lowercases only the
header (emailSecurity.js 41-42), so the check rejects, while the claimed
fully case-insensitive check accepts.  The result is not independent of
the letter case of the required tokens. -/
theorem hasRequiredAuthResults_token_case_counterexample :
    hasRequiredAuthResults upperAuthEmail [("SPF=PASS").data] = false
    ∧ claimedAuthResultsCheck upperAuthEmail [("SPF=PASS").data] = true := by
  constructor <;> decide

/-- C4 amended: for every parsed email and non-empty token list, the
check accepts iff every required token occurs verbatim as a substring of
the lowercased concatenated Authentication-Results value — case
insensitive in the header value but case sensitive in the tokens (a
token holding an upper-case letter can never be satisfied). -/
theorem hasRequiredAuthResults_lowercased_header (e : EmailV) (req : List (List Char))
    (h : req ≠ []) :
    (hasRequiredAuthResults e req = true ↔
      ∀ t ∈ req, jsIncludes (lcStr (getAuthenticationResultsHeader e)) t = true) := by
  simp [hasRequiredAuthResults, List.isEmpty_iff, h, List.all_eq_true]

/-- Witness for the amended C4: a lowercase token against the upper-case
header value. -/
theorem hasRequiredAuthResults_lowercased_header_witness :
    (hasRequiredAuthResults upperAuthEmail [("spf=pass").data] = true ↔
      ∀ t ∈ [("spf=pass").data],
        jsIncludes (lcStr (getAuthenticationResultsHeader upperAuthEmail)) t = true) :=
  hasRequiredAuthResults_lowercased_header upperAuthEmail [("spf=pass").data] (by decide)

/-! ### C5: routing returns the stop-bounded prefix of sorted matches -/

/-- On a rule list whose every rule evaluates inside the modelled
fragment, the rule walk returns exactly the targets of the matched-rule
prefix that ends at the first stopProcessing match. -/
theorem routeWalk_eq_takeThroughStop (e : EmailV) (l : List Rule)
    (hl : ∀ r ∈ l, (evaluateRule r e).isSome) :
    routeWalk e l = some ((takeThroughStop (matchedRules e l)).map mkTarget) := by
  induction l with
  | nil => rfl
  | cons r rs ih =>
    have hr := hl r (by simp)
    have hrs : ∀ x ∈ rs, (evaluateRule x e).isSome := fun x hx => hl x (by simp [hx])
    rcases hev : evaluateRule r e with _ | b
    · rw [hev] at hr
      simp at hr
    · cases b
      · simp [routeWalk, hev, matchedRules, ih hrs]
      · by_cases hstop : r.stopProcessing
        · simp [routeWalk, hev, hstop, matchedRules, takeThroughStop]
        · simp [routeWalk, hev, hstop, matchedRules, takeThroughStop, ih hrs]

/-- Counterexample for C5: a rule with the explicit priority 0 matches,
and the claim says its entry carries rule.priority, that is 0; but
rule.priority-or-999 treats the falsy 0 as unspecified
(webhookRouter.js 174), so the routed entry carries 999. -/
theorem route_priority_zero_counterexample :
    route [zeroPriorityRule] none sampleEmail =
      some [{ webhook := ("https://w.example").data, ruleName := ("r").data,
              priority := 999 }]
    ∧ zeroPriorityRule.priority = some 0 ∧ (999 : Int) ≠ 0 := by
  refine ⟨by decide, rfl, by decide⟩

/-- C5 amended: for every email and rule set evaluating inside the
modelled fragment, route returns exactly the prefix of the
ascending-priority-sorted matching rules that ends at the first match
with stopProcessing (all matches when none stops), each entry carrying
priority rule.priority — or 999 when the priority is unspecified or is
the falsy 0 (jsPriority); when no rule matches, the configured (truthy)
default URL yields the single entry default/9999.  The sorted rule list
is ascending by that priority and is a permutation of the input. -/
theorem route_prefix_of_sorted_matches (rules : List Rule) (dflt : Option (List Char))
    (e : EmailV) (hall : ∀ r ∈ rules, (evaluateRule r e).isSome) :
    route rules dflt e = some (
      if (takeThroughStop (matchedRules e (sortRules rules))).isEmpty then
        match dflt with
        | some d => if d.isEmpty then [] else [defaultTarget d]
        | none => []
      else (takeThroughStop (matchedRules e (sortRules rules))).map mkTarget)
    ∧ List.Sorted ruleLE (sortRules rules)
    ∧ List.Perm (sortRules rules) rules := by
  have hperm : List.Perm (sortRules rules) rules := List.perm_insertionSort ruleLE rules
  have hsorted := List.sorted_insertionSort ruleLE rules
  have hs : ∀ r ∈ sortRules rules, (evaluateRule r e).isSome :=
    fun r hrm => hall r (hperm.mem_iff.mp hrm)
  refine ⟨?_, hsorted, hperm⟩
  unfold route
  rw [routeWalk_eq_takeThroughStop e _ hs]
  by_cases hemp : (takeThroughStop (matchedRules e (sortRules rules))).isEmpty
  · have hlist : takeThroughStop (matchedRules e (sortRules rules)) = [] := by
      simpa [List.isEmpty_iff] using hemp
    simp [hlist]
  · have hlist : takeThroughStop (matchedRules e (sortRules rules)) ≠ [] := by
      simpa [List.isEmpty_iff] using hemp
    simp [List.isEmpty_iff, hlist]

/-- Witness for the amended C5: two wildcard rules both match the sample
email, the priority-1 rule stops processing, so only its target is
routed even though a default URL is configured. -/
theorem route_prefix_of_sorted_matches_witness :
    route [afterStopRule, stopRule] (some ("https://d.example").data) sampleEmail =
      some (
        if (takeThroughStop (matchedRules sampleEmail
              (sortRules [afterStopRule, stopRule]))).isEmpty then
          match some ("https://d.example").data with
          | some d => if d.isEmpty then [] else [defaultTarget d]
          | none => []
        else (takeThroughStop (matchedRules sampleEmail
              (sortRules [afterStopRule, stopRule]))).map mkTarget)
      ∧ List.Sorted ruleLE (sortRules [afterStopRule, stopRule])
      ∧ List.Perm (sortRules [afterStopRule, stopRule]) [afterStopRule, stopRule] :=
  route_prefix_of_sorted_matches [afterStopRule, stopRule]
    (some ("https://d.example").data) sampleEmail (by decide)

/-! ### C8: sliding-window boundary -/

theorem hitsFor_setHits (rl : RateLimiter) (k : List Char) (h : List Int) :
    hitsFor (setHits rl k h) k = h := by
  simp [hitsFor, setHits, List.lookup]

theorem setHits_maxHits (rl : RateLimiter) (k : List Char) (h : List Int) :
    (setHits rl k h).maxHits = rl.maxHits := rfl

theorem setHits_windowMs (rl : RateLimiter) (k : List Char) (h : List Int) :
    (setHits rl k h).windowMs = rl.windowMs := rfl

/-- C8: an attempt is admitted iff the hits inside the window, counting
the current attempt, stay at or below maxHits (so maxHits plus one or
more is rejected); and after an attempt that brings the in-window count
to exactly maxHits, any further attempt whose window still covers all
the recorded hits is rejected (rateLimiter.js 354-363). -/
theorem isAllowed_window_boundary (rl : RateLimiter) (key : List Char) (now : Int) :
    ((isAllowed rl key now).1 = true ↔ inWindowCount rl key now + 1 ≤ rl.maxHits)
    ∧ (inWindowCount rl key now + 1 = rl.maxHits →
        ∀ now2 : Int,
          (∀ t ∈ hitsFor (isAllowed rl key now).2 key, now2 - rl.windowMs < t) →
          (isAllowed (isAllowed rl key now).2 key now2).1 = false) := by
  constructor
  · simp [isAllowed, inWindowCount]
  · intro hexact now2 hwin
    simp only [isAllowed, setHits_maxHits, setHits_windowMs, hitsFor_setHits] at hwin ⊢
    rw [List.filter_eq_self.mpr (fun a ha => by simpa using hwin a ha)]
    simp only [List.length_append, List.length_cons, List.length_nil]
    have hlen :
        ((hitsFor rl key).filter (fun t => decide (now - rl.windowMs < t))).length + 1 =
          rl.maxHits := by
      simpa [inWindowCount] using hexact
    simp only [decide_eq_false_iff_not, Nat.not_le]
    omega

/-- Witness for C8: with a window of 1000 ms, a cap of 3 and two recorded
hits, the attempt at 200 is the third in-window hit and is admitted; the
next attempt at 250 is rejected. -/
theorem isAllowed_window_boundary_witness :
    (isAllowed (isAllowed sampleLimiter (("10.0.0.1").data) 200).2 (("10.0.0.1").data) 250).1
      = false :=
  (isAllowed_window_boundary sampleLimiter (("10.0.0.1").data) 200).2 (by decide) 250
    (by decide)

/-! ### C6: the attachment size cap -/

/-- C6: an attachment strictly over maxFileSize is skipped (location
none, storageType skipped) with no backend invoked, while an attachment
of exactly maxFileSize proceeds to the configured primary store and, when
the upload succeeds, is stored there (s3Service.js 14-17 and 34-48). -/
theorem uploadToS3_size_cap (cfg : StorageConfig) (att : Attachment)
    (oracle : StorageOracle) (url : List Char) :
    (att.size > cfg.maxFileSize →
      uploadToS3 cfg att oracle =
        (Except.ok { location := none, storageType := ("skipped").data },
         ([] : List BackendCall)))
    ∧ (att.size = cfg.maxFileSize → cfg.s3Configured = true →
        oracle.s3Result = some url →
        uploadToS3 cfg att oracle =
          (Except.ok { location := some url, storageType := ("s3").data },
           [BackendCall.s3Upload])) := by
  constructor
  · intro h
    simp [uploadToS3, h]
  · intro hsz hcfg hs3
    have hng : ¬ att.size > cfg.maxFileSize := by omega
    simp [uploadToS3, hng, hcfg, hs3]

/-- Witness for C6: over the cap by one byte skips with no backend call;
exactly at the cap uploads to the primary store. -/
theorem uploadToS3_size_cap_witness :
    (uploadToS3 { maxFileSize := 1024, s3Configured := true }
        { filename := ("big.iso").data, contentType := ("application/octet-stream").data,
          size := 1025, content := [] }
        { s3Result := some ("u").data, localResult := none } =
      (Except.ok { location := none, storageType := ("skipped").data },
       ([] : List BackendCall)))
    ∧ (uploadToS3 { maxFileSize := 1024, s3Configured := true }
        { filename := ("doc.pdf").data, contentType := ("application/pdf").data,
          size := 1024, content := [] }
        { s3Result := some ("https://bucket/doc.pdf").data, localResult := none } =
      (Except.ok { location := some ("https://bucket/doc.pdf").data,
                   storageType := ("s3").data },
       [BackendCall.s3Upload])) :=
  ⟨(uploadToS3_size_cap _ _ _ (("u").data)).1 (by decide),
   (uploadToS3_size_cap _ _ _ _).2 (by decide) (by decide) rfl⟩

/-! ### C7: all-failed throws, partial success returns the failed subset -/

theorem mkTargetResult_success (t : Target) (o : PostOutcome) :
    (mkTargetResult t o).success = isSuccessOutcome o := by
  cases o <;> rfl

theorem mkTargetResult_webhook (t : Target) (o : PostOutcome) :
    (mkTargetResult t o).webhook = t.webhook := by
  cases o <;> rfl

/-- C7: over a non-empty target list, sendToWebhook's dispatch loop
throws iff every target failed, and the thrown error carries the full
failed-webhook list; with at least one success it returns one result per
target and a failedWebhooks list holding exactly the targets that
failed (webhookService.js 33-103). -/
theorem dispatchTargets_partial_success (targets : List Target)
    (post : Target → PostOutcome) (hne : targets ≠ []) :
    ((∃ err, dispatchTargets targets post = .error err) ↔
      ∀ t ∈ targets, isSuccessOutcome (post t) = false)
    ∧ (∀ err, dispatchTargets targets post = .error err →
        err.failedWebhooks = targets.map (fun t => t.webhook)
        ∧ err.results = targets.map (fun t => mkTargetResult t (post t)))
    ∧ (∀ s, dispatchTargets targets post = .ok s →
        s.results = targets.map (fun t => mkTargetResult t (post t))
        ∧ s.failedWebhooks =
            (targets.filter (fun t => !isSuccessOutcome (post t))).map (fun t => t.webhook)
        ∧ s.totalWebhooks = targets.length) := by
  have hfm :
      (targets.map (fun t => mkTargetResult t (post t))).filter (fun r => !r.success) =
        (targets.filter (fun t => !isSuccessOutcome (post t))).map
          (fun t => mkTargetResult t (post t)) := by
    rw [List.filter_map]
    congr 1
    apply List.filter_congr
    intro t _
    simp [mkTargetResult_success]
  have hwports :
      ((targets.filter (fun t => !isSuccessOutcome (post t))).map
          (fun t => mkTargetResult t (post t))).map (fun r => r.webhook) =
        (targets.filter (fun t => !isSuccessOutcome (post t))).map (fun t => t.webhook) := by
    rw [List.map_map]
    apply List.map_congr_left
    intro t _
    simp [mkTargetResult_webhook]
  have hiff :
      ((targets.filter (fun t => !isSuccessOutcome (post t))).length = targets.length ↔
        ∀ t ∈ targets, isSuccessOutcome (post t) = false) := by
    rw [List.filter_length_eq_length]
    constructor
    · intro h t ht
      simpa using h t ht
    · intro h t ht
      simp [h t ht]
  refine ⟨?_, ?_, ?_⟩
  · constructor
    · rintro ⟨err, herr⟩
      unfold dispatchTargets at herr
      by_cases hc :
          ((targets.map (fun t => mkTargetResult t (post t))).filter
            (fun r => !r.success)).length = targets.length
      · rw [← hiff]
        simpa [hfm] using hc
      · rw [if_neg hc] at herr
        exact Except.noConfusion herr
    · intro hallfail
      exact ⟨_, by
        unfold dispatchTargets
        rw [if_pos (by simpa [hfm] using hiff.mpr hallfail)]⟩
  · intro err herr
    unfold dispatchTargets at herr
    by_cases hc :
        ((targets.map (fun t => mkTargetResult t (post t))).filter
          (fun r => !r.success)).length = targets.length
    · rw [if_pos hc] at herr
      have := Except.error.inj herr
      subst this
      have hall : ∀ t ∈ targets, isSuccessOutcome (post t) = false := by
        rw [← hiff]
        simpa [hfm] using hc
      have hfe : targets.filter (fun t => !isSuccessOutcome (post t)) = targets :=
        List.filter_eq_self.mpr (fun t ht => by simp [hall t ht])
      constructor
      · simp [hfm, hwports, hfe, mkTargetResult_webhook]
      · rfl
    · rw [if_neg hc] at herr
      exact Except.noConfusion herr
  · intro s hs
    unfold dispatchTargets at hs
    by_cases hc :
        ((targets.map (fun t => mkTargetResult t (post t))).filter
          (fun r => !r.success)).length = targets.length
    · rw [if_pos hc] at hs
      exact Except.noConfusion hs
    · rw [if_neg hc] at hs
      have := Except.ok.inj hs
      subst this
      exact ⟨rfl, by simp [hfm, hwports], rfl⟩

/-- Witness for C7: one failing and one succeeding target give a partial
success whose failedWebhooks holds exactly the failing target. -/
theorem dispatchTargets_partial_success_witness :
    ((∃ err,
        dispatchTargets [defaultTarget ("https://t1").data, defaultTarget ("https://t2").data]
          (fun t => if t.webhook = ("https://t1").data then .failure ("boom").data (some 500)
                    else .success 200) = .error err) ↔
      ∀ t ∈ [defaultTarget ("https://t1").data, defaultTarget ("https://t2").data],
        isSuccessOutcome
          ((fun t => if t.webhook = ("https://t1").data then
              PostOutcome.failure ("boom").data (some 500)
            else PostOutcome.success 200) t) = false)
    ∧ (∀ err,
        dispatchTargets [defaultTarget ("https://t1").data, defaultTarget ("https://t2").data]
          (fun t => if t.webhook = ("https://t1").data then .failure ("boom").data (some 500)
                    else .success 200) = .error err →
        err.failedWebhooks =
          [defaultTarget ("https://t1").data, defaultTarget ("https://t2").data].map
            (fun t => t.webhook)
        ∧ err.results =
          [defaultTarget ("https://t1").data, defaultTarget ("https://t2").data].map
            (fun t => mkTargetResult t
              ((fun t => if t.webhook = ("https://t1").data then
                  PostOutcome.failure ("boom").data (some 500)
                else PostOutcome.success 200) t)))
    ∧ (∀ s,
        dispatchTargets [defaultTarget ("https://t1").data, defaultTarget ("https://t2").data]
          (fun t => if t.webhook = ("https://t1").data then .failure ("boom").data (some 500)
                    else .success 200) = .ok s →
        s.results =
          [defaultTarget ("https://t1").data, defaultTarget ("https://t2").data].map
            (fun t => mkTargetResult t
              ((fun t => if t.webhook = ("https://t1").data then
                  PostOutcome.failure ("boom").data (some 500)
                else PostOutcome.success 200) t))
        ∧ s.failedWebhooks =
          ([defaultTarget ("https://t1").data, defaultTarget ("https://t2").data].filter
            (fun t => !isSuccessOutcome
              ((fun t => if t.webhook = ("https://t1").data then
                  PostOutcome.failure ("boom").data (some 500)
                else PostOutcome.success 200) t))).map (fun t => t.webhook)
        ∧ s.totalWebhooks =
          [defaultTarget ("https://t1").data, defaultTarget ("https://t2").data].length) :=
  dispatchTargets_partial_success
    [defaultTarget ("https://t1").data, defaultTarget ("https://t2").data]
    (fun t => if t.webhook = ("https://t1").data then .failure ("boom").data (some 500)
              else .success 200)
    (by decide)

/-! ### C2: durable-queue writes are not crash-atomic -/

/-- C2 (code bug): DurableQueue.create writes the task file with one
plain fs.writeFile (durableQueue.js 277), not a temp-file-plus-rename;
so there is a crash point at which a reader observes a one-byte file —
neither the previous state (no file at all on an empty queue directory)
nor the complete serialized task — contradicting the required
crash-atomicity.  The second listed crash state is reachable, its read
yields the first byte of the JSON, and that observation differs from the
complete task. -/
theorem durableCreate_crash_partial_task :
    ((durableCreateCrashStates [] crashTaskId crashTaskCreatedAt crashTaskParsedJson
        crashTaskFwJson).getD 1 []) ∈
      durableCreateCrashStates [] crashTaskId crashTaskCreatedAt crashTaskParsedJson
        crashTaskFwJson
    ∧ durableGet ([] : QueueFS) crashTaskId = none
    ∧ durableGet ((durableCreateCrashStates [] crashTaskId crashTaskCreatedAt
          crashTaskParsedJson crashTaskFwJson).getD 1 []) crashTaskId =
        some ((taskJson crashTaskId crashTaskCreatedAt crashTaskParsedJson
          crashTaskFwJson).take 1)
    ∧ (taskJson crashTaskId crashTaskCreatedAt crashTaskParsedJson crashTaskFwJson).take 1 ≠
        taskJson crashTaskId crashTaskCreatedAt crashTaskParsedJson crashTaskFwJson := by
  refine ⟨by decide, rfl, by decide, by decide⟩

/-! ### C1: the webhook signature triple (spec-modelled) -/

/-- C1 (spec-modelled; the signing code is absent from src, only its
unit test and the spec describe it): when a shared secret is configured,
the outgoing request headers carry X-Inbound-Email-Timestamp holding the
current millis, X-Inbound-Email-Signature equal to sha256= followed by
the hex HMAC-SHA256 over timestamp.payloadJson under the secret, and
X-Inbound-Email-Signature-Version equal to v1. -/
theorem webhook_signature_triple (k : List Char) (nowMs : Nat) (payloadJson : List Char) :
    (webhookRequestHeaders (some k) nowMs payloadJson).lookup
        (("X-Inbound-Email-Timestamp").data) = some (natDecStr nowMs)
    ∧ (webhookRequestHeaders (some k) nowMs payloadJson).lookup
        (("X-Inbound-Email-Signature").data) =
      some (("sha256=").data ++ bytesToHex (hmacSha256 (asciiBytes k)
        (asciiBytes (natDecStr nowMs ++ '.' :: payloadJson))))
    ∧ (webhookRequestHeaders (some k) nowMs payloadJson).lookup
        (("X-Inbound-Email-Signature-Version").data) = some (("v1").data) := by
  refine ⟨?_, ?_, ?_⟩ <;> rfl

/-! ### C9: encrypted-at-rest round trip -/

theorem unhex_hex_lt : ∀ n < 16, unhexDigit (hexDigitChar n) = n := by decide

theorem hexToBytes_bytesToHex (bs : List Nat) (h : ∀ b ∈ bs, b < 256) :
    hexToBytes (bytesToHex bs) = bs := by
  induction bs with
  | nil => rfl
  | cons b rest ih =>
    have hb : b < 256 := h b (by simp)
    have hrest : ∀ x ∈ rest, x < 256 := fun x hx => h x (by simp [hx])
    have hdiv : b / 16 < 16 := by omega
    have hmod : b % 16 < 16 := by omega
    have hunf : bytesToHex (b :: rest) =
        hexDigitChar (b / 16) :: hexDigitChar (b % 16) :: bytesToHex rest := by
      simp [bytesToHex, hexByte]
    rw [hunf]
    show (16 * unhexDigit (hexDigitChar (b / 16)) + unhexDigit (hexDigitChar (b % 16))) ::
        hexToBytes (bytesToHex rest) = b :: rest
    rw [unhex_hex_lt _ hdiv, unhex_hex_lt _ hmod, ih hrest]
    congr 1
    omega

theorem zipWith_xor_cancel (p : List Nat) :
    ∀ ks : List Nat, p.length = ks.length →
      List.zipWith Nat.xor (List.zipWith Nat.xor p ks) ks = p := by
  induction p with
  | nil => intro ks h; simp
  | cons a p ih =>
    intro ks h
    cases ks with
    | nil => simp at h
    | cons b ks2 =>
      simp only [List.zipWith_cons_cons]
      rw [show (a.xor b).xor b = a from Nat.xor_cancel_right b a, ih ks2 (by simpa using h)]

theorem gcmKeystream_length (k iv : List Nat) (n : Nat) :
    (gcmKeystream k iv n).length = n := by
  simp [gcmKeystream]

theorem gcmEncrypt_length (k iv pt : List Nat) :
    (gcmEncrypt k iv pt).length = pt.length := by
  simp [gcmEncrypt, gcmKeystream_length]

theorem blockNatToBytes_lt (x : Nat) : ∀ b ∈ blockNatToBytes x, b < 256 := by
  intro b hb
  simp only [blockNatToBytes, List.mem_map, List.mem_range] at hb
  obtain ⟨i, _, rfl⟩ := hb
  exact Nat.mod_lt _ (by norm_num)

theorem gcmTag_lt (k iv ct : List Nat) : ∀ b ∈ gcmTag k iv ct, b < 256 := by
  intro b hb
  exact blockNatToBytes_lt _ b (by simpa [gcmTag] using hb)

theorem blockNatToBytes_ne_nil (x : Nat) : blockNatToBytes x ≠ [] := by
  intro h
  have := congrArg List.length h
  simp [blockNatToBytes] at this

theorem gcmTag_ne_nil (k iv ct : List Nat) : gcmTag k iv ct ≠ [] := by
  simpa [gcmTag] using blockNatToBytes_ne_nil
    (ghash (bytesToBlockNat (aesEncryptBlock k (List.replicate 16 0)))
        ((chunks16 ct).map bytesToBlockNat ++ [8 * ct.length]) ^^^
      bytesToBlockNat (aesEncryptBlock k (blockNatToBytes (j0Nat iv))))

theorem bytesToHex_ne_nil (bs : List Nat) (h : bs ≠ []) : bytesToHex bs ≠ [] := by
  cases bs with
  | nil => exact absurd rfl h
  | cons b r => simp [bytesToHex, hexByte]

theorem append_meta_ne (p : List Char) : p ≠ p ++ (".meta").data := by
  intro h
  have := congrArg List.length h
  simp at this

/-- Reading the data path directly after a save hits the data entry, not
the meta entry written over it. -/
theorem lookup_save_pair (p : List Char) (m c : FEntry) (fs : AttachFS) :
    List.lookup p ((p ++ (".meta").data, m) :: (p, c) :: fs) = some c := by
  have hb : (p == p ++ (".meta").data) = false :=
    beq_eq_false_iff_ne.mpr (append_meta_ne p)
  simp [List.lookup, hb]

/-- Reading the meta path directly after a save hits the meta entry. -/
theorem lookup_save_meta (p : List Char) (m c : FEntry) (fs : AttachFS) :
    List.lookup (p ++ (".meta").data) ((p ++ (".meta").data, m) :: (p, c) :: fs) = some m := by
  simp [List.lookup]

/-- C9: for every attachment content and every configured 32-byte key,
saving through the local storage tier and reading the saved path back
returns exactly the original bytes — the read decrypts the AES-256-GCM
ciphertext recorded on disk with the IV and auth tag stored in the
sibling meta file (localStorage.js 36-74, 104-140, 229-242). -/
theorem localStorage_encrypted_roundtrip (key iv rand : List Nat) (fs : AttachFS)
    (basePath : List Char) (att : Attachment) (ts : Nat)
    (hkey : key.length = 32) (hiv : iv.length = 12) (hivb : ∀ b ∈ iv, b < 256) :
    localRead (some key) (localSave (some key) fs basePath att ts rand iv).1
        (localSave (some key) fs basePath att ts rand iv).2 =
      Except.ok att.content := by
  have hivne : iv ≠ [] := by
    rintro rfl
    simp at hiv
  have hne1 : (basePath ++ '/' :: generateFilename ts rand att.filename) ≠
      (basePath ++ '/' :: generateFilename ts rand att.filename) ++ (".meta").data :=
    append_meta_ne _
  have hivhex : hexToBytes (bytesToHex iv) = iv := hexToBytes_bytesToHex iv hivb
  have htaghex : hexToBytes (bytesToHex (gcmTag key iv (gcmEncrypt key iv att.content))) =
      gcmTag key iv (gcmEncrypt key iv att.content) :=
    hexToBytes_bytesToHex _ (gcmTag_lt key iv _)
  have hivempty : (bytesToHex iv).isEmpty = false := by
    simpa [List.isEmpty_iff] using bytesToHex_ne_nil iv hivne
  have htagempty :
      (bytesToHex (gcmTag key iv (gcmEncrypt key iv att.content))).isEmpty = false := by
    simpa [List.isEmpty_iff] using bytesToHex_ne_nil _ (gcmTag_ne_nil key iv _)
  have hcancel :
      List.zipWith Nat.xor (gcmEncrypt key iv att.content)
        (gcmKeystream key iv (gcmEncrypt key iv att.content).length) = att.content := by
    rw [gcmEncrypt_length]
    exact zipWith_xor_cancel att.content _ (gcmKeystream_length key iv _).symm
  simp only [localSave, localRead, encryptContent]
  rw [lookup_save_pair, lookup_save_meta]
  simp [decryptContent, hivhex, htaghex, hcancel, bytesToHex_ne_nil iv hivne,
    bytesToHex_ne_nil _ (gcmTag_ne_nil key iv _)]

/-- Witness for C9: a three-byte attachment saved under the all-zero
32-byte key and all-zero IV reads back unchanged. -/
theorem localStorage_encrypted_roundtrip_witness :
    localRead (some (List.replicate 32 0))
        (localSave (some (List.replicate 32 0)) [] ("/tmp").data
          { filename := ("a.txt").data, contentType := ("text/plain").data, size := 3,
            content := [1, 2, 3] } 1700000000000 [0, 0, 0, 0, 0, 0, 0, 0]
          (List.replicate 12 0)).1
        (localSave (some (List.replicate 32 0)) [] ("/tmp").data
          { filename := ("a.txt").data, contentType := ("text/plain").data, size := 3,
            content := [1, 2, 3] } 1700000000000 [0, 0, 0, 0, 0, 0, 0, 0]
          (List.replicate 12 0)).2
      = Except.ok [1, 2, 3] :=
  localStorage_encrypted_roundtrip (List.replicate 32 0) (List.replicate 12 0)
    [0, 0, 0, 0, 0, 0, 0, 0] [] (("/tmp").data)
    { filename := ("a.txt").data, contentType := ("text/plain").data, size := 3,
      content := [1, 2, 3] } 1700000000000 (by decide) (by decide) (by decide)

end InboundEmail
